import Mathlib

/-!
Verification of the BMA253 accelerometer driver (bma253.c) against its
natural-language specification.  The definitions below are a shallow
embedding of the driver code: each definition carries a reference to the
source lines it is translated from.
-/

namespace BMA253

/-! ## Interrupt synchronization primitive (bma253.c lines 136-228)

The fields active and asleep of struct bma253_int, together with a binary
semaphore, bridge the hardware interrupt callback and a blocking consumer
thread.  Every mutation of the two booleans happens inside one
OS_ENTER_CRITICAL / OS_EXIT_CRITICAL section, so each critical section is
one atomic step of the transition system. -/

/-- Flags of struct bma253_int: active latches an edge that arrived with no
waiter armed, asleep marks an armed waiter (bma253.c lines 144-145). -/
structure IntFlags where
  active : Bool
  asleep : Bool
  deriving DecidableEq, Repr

/-- Initial flag state established by init_interrupt (bma253.c lines 144-145). -/
def initFlags : IntFlags := { active := false, asleep := false }

/-- Critical-section effect of wait_interrupt (bma253.c lines 163-179).
The pin-level pre-check (lines 166-170) returns without touching the flags;
pinActive records the outcome of that hal_gpio_read comparison. -/
def waitCSStep (pinActive : Bool) (s : IntFlags) : IntFlags :=
  if pinActive then s
  else if s.active then { s with active := false }
  else { s with asleep := true }

/-- Critical-section effect of wake_interrupt (bma253.c lines 197-205). -/
def wakeCSStep (s : IntFlags) : IntFlags :=
  if s.asleep then { s with asleep := false }
  else { s with active := true }

/-- Effect of undo_interrupt (bma253.c lines 149-156). -/
def undoStep (_ignored : IntFlags) : IntFlags := { active := false, asleep := false }

/-- One locked mutation of the interrupt flags: the critical sections of
wait_interrupt, wake_interrupt and undo_interrupt. -/
inductive IntOp where
  | waitCS (pinActive : Bool)
  | wakeCS
  | undo
  deriving DecidableEq, Repr

/-- Dispatch one critical-section step. -/
def intStep : IntOp → IntFlags → IntFlags
  | IntOp.waitCS pinActive, s => waitCSStep pinActive s
  | IntOp.wakeCS, s => wakeCSStep s
  | IntOp.undo, s => undoStep s

/-- Run a sequence of critical-section steps from a given flag state. -/
def runOps (ops : List IntOp) (s : IntFlags) : IntFlags :=
  ops.foldl (fun t op => intStep op t) s

/-- Mutual-exclusion property of the two flags. -/
abbrev MutexFree (s : IntFlags) : Prop := s.asleep = false ∨ s.active = false

theorem intStep_preserves_mutexFree (op : IntOp) (s : IntFlags)
    (h : MutexFree s) : MutexFree (intStep op s) := by
  rcases s with ⟨a, b⟩
  revert h
  cases op with
  | waitCS pin => cases pin <;> cases a <;> cases b <;> decide
  | wakeCS => cases a <;> cases b <;> decide
  | undo => cases a <;> cases b <;> decide

theorem runOps_preserves_mutexFree (ops : List IntOp) (s : IntFlags)
    (h : MutexFree s) : MutexFree (runOps ops s) := by
  induction ops generalizing s with
  | nil => exact h
  | cons op rest ih =>
      exact ih (intStep op s) (intStep_preserves_mutexFree op s h)

/-- C2: in every state reachable from the initial interrupt-synchronization
state by any sequence of wait_interrupt, wake_interrupt and undo_interrupt
critical sections, at most one of asleep and active is true. -/
theorem interrupt_flags_at_most_one (ops : List IntOp) :
    (runOps ops initFlags).asleep = false ∨ (runOps ops initFlags).active = false :=
  runOps_preserves_mutexFree ops initFlags (Or.inl rfl)

/-! ## Missed-wakeup freedom (C1)

The composed system of one thread executing wait_interrupt and any number
of wake_interrupt invocations.  wait_interrupt is split at its lock
boundary: the critical section (arming or consuming) and the subsequent
os_sem_pend are separate steps, so a wake may land in between, exactly the
race the latch is there for.  wake_interrupt runs its critical section and,
when a waiter was armed, immediately releases the semaphore; the release is
straight-line non-blocking code in the same context, so the pair is one
atomic step of the model.  The semaphore count absorbs a release that
arrives before the waiter reaches os_sem_pend. -/

/-- Program phase of the single thread calling wait_interrupt. -/
inductive WaiterPhase where
  | notStarted
  | blocked
  | done
  deriving DecidableEq, Repr

/-- Composed state: interrupt flags, semaphore count, waiter phase, and a
ghost counter of wake_interrupt invocations. -/
structure SyncState where
  flags : IntFlags
  sem : Nat
  waiter : WaiterPhase
  signals : Nat
  deriving DecidableEq, Repr

/-- Initial composed state: flags clear, semaphore at zero (os_sem_init with
count 0, bma253.c line 141), waiter not yet arrived. -/
def syncInit : SyncState :=
  { flags := initFlags, sem := 0, waiter := WaiterPhase.notStarted, signals := 0 }

/-- Steps of the composed system. -/
inductive SyncOp where
  | enter
  | wake
  | pend
  deriving DecidableEq, Repr

/-- Transition relation of the composed system. pin is the fixed outcome of
the pin-level pre-check in wait_interrupt (bma253.c lines 166-170).
enter is the critical section of wait_interrupt (lines 163-179), pend is
the os_sem_pend that follows when the thread armed itself (lines 181-189),
and wake is wake_interrupt in full (lines 197-212). -/
def syncStep (pin : Bool) : SyncOp → SyncState → SyncState
  | SyncOp.enter, s =>
      if s.waiter = WaiterPhase.notStarted then
        if pin then { s with waiter := WaiterPhase.done }
        else if s.flags.active then
          { s with flags := { s.flags with active := false }, waiter := WaiterPhase.done }
        else
          { s with flags := { s.flags with asleep := true }, waiter := WaiterPhase.blocked }
      else s
  | SyncOp.wake, s =>
      if s.flags.asleep then
        { s with flags := { s.flags with asleep := false },
                 sem := s.sem + 1, signals := s.signals + 1 }
      else
        { s with flags := { s.flags with active := true }, signals := s.signals + 1 }
  | SyncOp.pend, s =>
      if s.waiter = WaiterPhase.blocked then
        if 0 < s.sem then { s with sem := s.sem - 1, waiter := WaiterPhase.done }
        else s
      else s

/-- Run the composed system from its initial state. -/
def syncRun (pin : Bool) (ops : List SyncOp) : SyncState :=
  ops.foldl (fun s op => syncStep pin op s) syncInit

/-- Inductive invariant of the composed system. -/
abbrev SyncInv (pin : Bool) (s : SyncState) : Prop :=
  (s.waiter = WaiterPhase.notStarted →
      s.flags.asleep = false ∧ s.sem = 0 ∧
      (0 < s.signals → pin = true ∨ s.flags.active = true))
  ∧ (s.waiter = WaiterPhase.blocked → s.flags.asleep = true ∨ 0 < s.sem)
  ∧ (s.flags.asleep = true → s.waiter = WaiterPhase.blocked)
  ∧ (s.flags.asleep = true → s.sem = 0)

theorem syncInv_init (pin : Bool) : SyncInv pin syncInit := by
  cases pin <;> decide

theorem syncStep_preserves_inv (pin : Bool) (op : SyncOp) (s : SyncState)
    (h : SyncInv pin s) : SyncInv pin (syncStep pin op s) := by
  obtain ⟨⟨ac, sl⟩, sem, w, sig⟩ := s
  cases op <;> cases w <;> cases pin <;> cases ac <;> cases sl <;> cases sem <;>
    simp_all [syncStep, SyncInv]

theorem syncRun_inv (pin : Bool) (ops : List SyncOp) : SyncInv pin (syncRun pin ops) := by
  have main : ∀ (l : List SyncOp) (s : SyncState), SyncInv pin s →
      SyncInv pin (l.foldl (fun t op => syncStep pin op t) s) := by
    intro l
    induction l with
    | nil => intro s hs; exact hs
    | cons op rest ih =>
        intro s hs
        exact ih (syncStep pin op s) (syncStep_preserves_inv pin op s hs)
  exact main ops syncInit (syncInv_init pin)

theorem sync_completion_of_inv (pin : Bool) (s : SyncState) (h : SyncInv pin s) :
    (s.waiter = WaiterPhase.notStarted → 0 < s.signals →
      (syncStep pin SyncOp.enter s).waiter = WaiterPhase.done)
    ∧ (s.waiter = WaiterPhase.blocked →
      (syncStep pin SyncOp.pend (syncStep pin SyncOp.wake s)).waiter = WaiterPhase.done) := by
  obtain ⟨⟨ac, sl⟩, sem, w, sig⟩ := s
  cases w <;> cases pin <;> cases ac <;> cases sl <;> cases sem <;>
    simp_all [syncStep, SyncInv]

/-- C1: for every interleaving of wake_interrupt and the two halves of
wait_interrupt, a signal is never lost.  In any reachable state, (a) if the
waiter has not yet entered and at least one wake_interrupt already ran, the
entry critical section returns immediately without arming (pin level or
latched active flag); (b) if the waiter is blocked, the next wake_interrupt
releases the semaphore and the pending os_sem_pend completes: the waiter
never stays blocked after a signal is issued. -/
theorem wait_interrupt_no_missed_wakeup (pin : Bool) (ops : List SyncOp) :
    ((syncRun pin ops).waiter = WaiterPhase.notStarted →
      0 < (syncRun pin ops).signals →
      (syncStep pin SyncOp.enter (syncRun pin ops)).waiter = WaiterPhase.done)
    ∧ ((syncRun pin ops).waiter = WaiterPhase.blocked →
      (syncStep pin SyncOp.pend
        (syncStep pin SyncOp.wake (syncRun pin ops))).waiter = WaiterPhase.done) :=
  sync_completion_of_inv pin (syncRun pin ops) (syncRun_inv pin ops)

/-- Witness for C1: from the initial state with the pin inactive, a single
entry blocks the waiter, and a wake followed by the pending semaphore
operation completes it. -/
theorem wait_interrupt_no_missed_wakeup_witness :
    (syncRun false [SyncOp.enter]).waiter = WaiterPhase.blocked ∧
    (syncStep false SyncOp.pend
      (syncStep false SyncOp.wake (syncRun false [SyncOp.enter]))).waiter
        = WaiterPhase.done :=
  ⟨by decide, (wait_interrupt_no_missed_wakeup false [SyncOp.enter]).2 (by decide)⟩


/-! ## FIFO drain engine (bma253.c lines 3348-3443)

bma253_read_and_handle_fifo_data reads the FIFO status register (overrun
bit and 7-bit frame counter, bma253_get_fifo_status lines 722-741), forces
the frame counter to the configured maximum on overrun (line 3399), issues
one burst read of frame_count times frame_size bytes (line 3413) and
decodes each frame, invoking the caller sink once per frame with early
termination (lines 3422-3439).  Fallible register operations are
represented by their return-code parameters. -/

/-- Modelled from the spec: SPEC_MAX_FIFO_DEPTH is defined in bma253_priv.h,
which is not under src; it is the configured maximum depth of the 32-frame
hardware FIFO.  The theorems below do not depend on the numeric value. -/
def SPEC_MAX_FIFO_DEPTH : Nat := 32

/-- Frame layout selector, enum fifo_data.  The C default branch of the
frame-size switch (line 3389) returns SYS_EINVAL for values outside this
enum; those are unrepresentable in the typed model. -/
inductive FifoDataKind where
  | xyz
  | xOnly
  | yOnly
  | zOnly
  deriving DecidableEq, Repr

/-- Frame size in bytes (bma253.c lines 3380-3391, AXIS_ALL = 3). -/
def frmSize : FifoDataKind → Nat
  | FifoDataKind.xyz => 3 <<< 1
  | _ => 1 <<< 1

/-- Number of sink invocations performed by the decode loop
(bma253.c lines 3422-3439) starting at index i with n frames left: the sink
runs once per frame and a true return breaks out of the loop. -/
def sinkCalls (stops : Nat → Bool) : Nat → Nat → Nat
  | _, 0 => 0
  | i, Nat.succ n => if stops i then 1 else 1 + sinkCalls stops (i + 1) n

/-- Outcome of one FIFO drain: return code, number of frames covered by the
single burst read, bytes requested by that read, number of sink
invocations, and whether the FIFO was cleared afterwards. -/
structure FifoDrainOut where
  rc : Int
  burstFrames : Nat
  burstBytes : Nat
  sinkInvocations : Nat
  fifoCleared : Bool
  deriving DecidableEq, Repr

/-- Shallow embedding of bma253_read_and_handle_fifo_data (bma253.c lines
3348-3443).  scaleRc is the result of get_accel_scale (line 3375), statusRc
of bma253_get_fifo_status (line 3393), burstRc of the burst get_registers
(line 3413); overrun and frameCounter are the decoded status bits
(lines 737-738), and stops is the sink early-termination behaviour. -/
def readAndHandleFifoData (kind : FifoDataKind) (scaleRc : Int) (statusRc : Int)
    (overrun : Bool) (frameCounter : Nat) (burstRc : Int) (stops : Nat → Bool) :
    FifoDrainOut :=
  if scaleRc ≠ 0 then ⟨scaleRc, 0, 0, 0, false⟩
  else if statusRc ≠ 0 then ⟨statusRc, 0, 0, 0, false⟩
  else
    let cnt := if overrun then SPEC_MAX_FIFO_DEPTH else frameCounter
    if cnt = 0 then ⟨0, 0, 0, 0, false⟩
    else if burstRc ≠ 0 then ⟨burstRc, cnt, cnt * frmSize kind, 0, false⟩
    else ⟨0, cnt, cnt * frmSize kind, sinkCalls stops 0 cnt, overrun⟩

theorem sinkCalls_all_continue (n i : Nat) :
    sinkCalls (fun _ => false) i n = n := by
  induction n generalizing i with
  | zero => rfl
  | succ m ih =>
      have h := ih (i + 1)
      simp [sinkCalls, h, Nat.add_comm]

/-- C3: whenever the FIFO status reports overrun, the drain burst-reads and
decodes exactly SPEC_MAX_FIFO_DEPTH frames, whatever 7-bit value the
untrusted frame counter holds: the result is identical for any two counter
values, the burst read covers exactly the maximum depth, and a sink that
never stops early is invoked exactly SPEC_MAX_FIFO_DEPTH times. -/
theorem fifo_overrun_drains_max (kind : FifoDataKind) (c1 c2 : Nat)
    (h1 : c1 < 128) (h2 : c2 < 128) (burstRc : Int) (stops : Nat → Bool) :
    readAndHandleFifoData kind 0 0 true c1 burstRc stops
      = readAndHandleFifoData kind 0 0 true c2 burstRc stops
    ∧ (readAndHandleFifoData kind 0 0 true c1 burstRc stops).burstFrames
      = SPEC_MAX_FIFO_DEPTH
    ∧ (burstRc = 0 →
      (readAndHandleFifoData kind 0 0 true c1 0 (fun _ => false)).sinkInvocations
        = SPEC_MAX_FIFO_DEPTH) := by
  refine ⟨rfl, ?_, fun _ => ?_⟩
  · by_cases hb : burstRc = 0 <;>
      simp [readAndHandleFifoData, SPEC_MAX_FIFO_DEPTH, hb]
  · simp [readAndHandleFifoData, SPEC_MAX_FIFO_DEPTH, sinkCalls_all_continue]

/-- Witness for C3: two different reported counters, 5 and 127, produce the
same full-depth drain under overrun. -/
theorem fifo_overrun_drains_max_witness :
    5 < 128 ∧
    (readAndHandleFifoData FifoDataKind.xyz 0 0 true 5 0 (fun _ => false)).burstFrames
      = SPEC_MAX_FIFO_DEPTH :=
  ⟨by decide,
    (fifo_overrun_drains_max FifoDataKind.xyz 5 127 (by decide) (by decide) 0
      (fun _ => false)).2.1⟩


/-! ## Power and bandwidth state machine (bma253.c lines 969-1090, 3640-3755)

Register writes and delays are recorded as an event trace; each fallible
bus operation draws its return code from an oracle indexed by the running
count of fallible operations, so every pattern of transport failures is a
choice of oracle. -/

/-- Host framework error codes (sysinit error.h, not under src; modelled
from the spec, which only needs them distinct from 0 and each other). -/
def SYS_EINVAL : Int := -2

/-- Transport failure code used in concrete counterexamples. -/
def SYS_EIO : Int := -5

/-- Busy error returned by the session-acquisition checks. -/
def SYS_EBUSY : Int := -8

/-- Power modes of enum bma253_power_mode. -/
inductive PowerMode where
  | normal
  | deepSuspend
  | suspend
  | standby
  | lpm1
  | lpm2
  deriving DecidableEq, Repr

/-- Sleep durations of enum bma253_sleep_duration. -/
inductive SleepDuration where
  | ms0p5
  | ms1
  | ms2
  | ms4
  | ms6
  | ms10
  | ms25
  | ms50
  | ms100
  | ms500
  | s1
  deriving DecidableEq, Repr

/-- Filter bandwidths of enum bma253_filter_bandwidth, in ascending rate
order; toNat gives the C enum value 0..7 (used by the comparison at
bma253.c line 3957 and the shift at line 637). -/
inductive FilterBandwidth where
  | hz7p81
  | hz15p63
  | hz31p25
  | hz62p5
  | hz125
  | hz250
  | hz500
  | hz1000
  deriving DecidableEq, Repr

/-- C enum value of a filter bandwidth. -/
def FilterBandwidth.toNat : FilterBandwidth → Nat
  | FilterBandwidth.hz7p81 => 0
  | FilterBandwidth.hz15p63 => 1
  | FilterBandwidth.hz31p25 => 2
  | FilterBandwidth.hz62p5 => 3
  | FilterBandwidth.hz125 => 4
  | FilterBandwidth.hz250 => 5
  | FilterBandwidth.hz500 => 6
  | FilterBandwidth.hz1000 => 7

/-- Power-mode bits of REG_ADDR_PMU_LPW, data[0] (bma253.c lines 979-1004). -/
def pmuLpwModeBits : PowerMode → Nat
  | PowerMode.normal => 0x00 <<< 5
  | PowerMode.deepSuspend => 0x01 <<< 5
  | PowerMode.suspend => 0x04 <<< 5
  | PowerMode.standby => 0x04 <<< 5
  | PowerMode.lpm1 => 0x02 <<< 5
  | PowerMode.lpm2 => 0x02 <<< 5

/-- Power-mode bits of REG_ADDR_PMU_LOW_POWER, data[1]
(bma253.c lines 986-1001); the sleep-timer bit is 0 for the
SLEEP_TIMER_EVENT_DRIVEN value every caller passes (lines 1044-1050). -/
def pmuLowPowerModeBits : PowerMode → Nat
  | PowerMode.standby => 0x01 <<< 6
  | PowerMode.lpm2 => 0x01 <<< 6
  | _ => 0

/-- Sleep-duration bits of REG_ADDR_PMU_LPW (bma253.c lines 1006-1042). -/
def sleepDurationBits : SleepDuration → Nat
  | SleepDuration.ms0p5 => 0x05
  | SleepDuration.ms1 => 0x06
  | SleepDuration.ms2 => 0x07
  | SleepDuration.ms4 => 0x08
  | SleepDuration.ms6 => 0x09
  | SleepDuration.ms10 => 0x0A
  | SleepDuration.ms25 => 0x0B
  | SleepDuration.ms50 => 0x0C
  | SleepDuration.ms100 => 0x0D
  | SleepDuration.ms500 => 0x0E
  | SleepDuration.s1 => 0x0F

/-- Complete REG_ADDR_PMU_LPW byte for a power mode and sleep duration. -/
def pmuLpwByte (pm : PowerMode) (sd : SleepDuration) : Nat :=
  pmuLpwModeBits pm ||| (sleepDurationBits sd <<< 1)

/-- Observable bus activity of the embedded driver operations. -/
inductive BusEvent where
  | writePmuLowPower (v : Nat)
  | writePmuLpw (v : Nat)
  | readFifoConfig
  | writeFifoConfig
  | writePmuBw (v : Nat)
  | delayMs (v : Nat)
  | delayUs (v : Nat)
  | reinitSeq
  deriving DecidableEq, Repr

/-- Bus context: the failure oracle, the index of the next fallible
operation, and the trace of events so far. -/
structure BusCtx where
  oracle : Nat → Int
  idx : Nat
  events : List BusEvent

/-- Fresh bus context for a given oracle. -/
def mkCtx (oracle : Nat → Int) : BusCtx := { oracle := oracle, idx := 0, events := [] }

/-- One fallible bus operation: record the event, consume one oracle slot. -/
def busOp (e : BusEvent) (c : BusCtx) : Int × BusCtx :=
  (c.oracle c.idx, { c with idx := c.idx + 1, events := c.events ++ [e] })

/-- One infallible delay (delay_msec). -/
def busDelay (ms : Nat) (c : BusCtx) : BusCtx :=
  { c with events := c.events ++ [BusEvent.delayMs ms] }

/-- Post-write settle delay performed by set_register itself (bma253.c
lines 500-516): after every successful write, 1 ms when the in-memory
power mode is a suspend-class mode (SUSPEND, DEEP_SUSPEND, LPM_1), else a
blocking 2 microsecond wait; after a failed write, 1 ms. -/
def settleDelay (power : PowerMode) (rc : Int) (c : BusCtx) : BusCtx :=
  if rc = 0 then
    match power with
    | PowerMode.suspend | PowerMode.deepSuspend | PowerMode.lpm1 => busDelay 1 c
    | _ => { c with events := c.events ++ [BusEvent.delayUs 2] }
  else busDelay 1 c

/-- One register write through set_register (bma253.c lines 454-519): the
fallible bus transfer followed by the settle delay, which depends on the
in-memory power mode current at the time of the write.  Register reads
(get_registers, lines 340-375) perform no settle delay. -/
def setRegOp (e : BusEvent) (power : PowerMode) (c : BusCtx) : Int × BusCtx :=
  let r := busOp e c
  (r.1, settleDelay power r.1 r.2)

/-- Shallow embedding of bma253_clear_fifo (bma253.c lines 2754-2767): a
read of REG_ADDR_FIFO_CONFIG_1 (no settle delay) followed by a write-back
through set_register (with its settle delay), aborting on the first
failure; power is the in-memory power mode current at the call. -/
def clearFifo (power : PowerMode) (c : BusCtx) : Int × BusCtx :=
  let r1 := busOp BusEvent.readFifoConfig c
  if r1.1 ≠ 0 then (r1.1, r1.2)
  else
    let r2 := setRegOp BusEvent.writeFifoConfig power r1.2
    (r2.1, r2.2)

/-- Mutable driver state of struct bma253 relevant to the power, bandwidth
and arbitration logic. -/
structure DevState where
  power : PowerMode
  bandwidthCurr : FilterBandwidth
  cfgPowerMode : PowerMode
  cfgFilterBandwidth : FilterBandwidth
  cfgSleepDuration : SleepDuration
  daqReqNew : Bool
  daqInProc : Bool
  evEnabled : Nat
  hwCfgPending : Bool
  pendingPm : PowerMode
  pendingBw : FilterBandwidth
  deriving DecidableEq, Repr

/-- Shallow embedding of bma253_set_power_settings (bma253.c lines
969-1090), as instantiated by change_power: sleep timer EVENT_DRIVEN,
sleep duration from the configuration.  Writes REG_ADDR_PMU_LOW_POWER,
clears the FIFO when entering NORMAL (line 1061), writes REG_ADDR_PMU_LPW,
commits the in-memory power mode only after that write succeeds
(line 1070), delays 1 ms after entering a suspend-class mode
(lines 1073-1082) and clears the FIFO after entering SUSPEND (line 1084).
Every write carries the set_register settle delay for the power mode
current at that write: the writes up to and including PMU_LPW see the
pre-transition mode, the SUSPEND-entry FIFO clear the committed one. -/
def setPowerSettings (pm : PowerMode) (sd : SleepDuration) (s : DevState) (c : BusCtx) :
    Int × DevState × BusCtx :=
  let r1 := setRegOp (BusEvent.writePmuLowPower (pmuLowPowerModeBits pm)) s.power c
  if r1.1 ≠ 0 then (r1.1, s, r1.2)
  else
    let r2 := if pm = PowerMode.normal then clearFifo s.power r1.2 else (0, r1.2)
    if r2.1 ≠ 0 then (r2.1, s, r2.2)
    else
      let r3 := setRegOp (BusEvent.writePmuLpw (pmuLpwByte pm sd)) s.power r2.2
      if r3.1 ≠ 0 then (r3.1, s, r3.2)
      else
        let s1 := { s with power := pm }
        let c4 := if pm = PowerMode.suspend ∨ pm = PowerMode.deepSuspend ∨ pm = PowerMode.lpm1
          then busDelay 1 r3.2 else r3.2
        if pm = PowerMode.suspend then
          let r5 := clearFifo pm c4
          if r5.1 ≠ 0 then (r5.1, s1, r5.2) else (0, s1, r5.2)
        else (0, s1, c4)

/-- Truth of the step-1 staging condition in change_power (bma253.c lines
3661-3689): moving between the two low-power classes in either direction
is staged through NORMAL. -/
def stagedTransition (cur target : PowerMode) : Bool :=
  match cur with
  | PowerMode.suspend | PowerMode.lpm1 =>
      match target with
      | PowerMode.standby | PowerMode.lpm2 => true
      | _ => false
  | PowerMode.standby | PowerMode.lpm2 =>
      match target with
      | PowerMode.suspend | PowerMode.lpm1 => true
      | _ => false
  | _ => false

/-- Core of change_power after the deep-suspend exit (bma253.c lines
3661-3720): optional staged write to NORMAL, then the write to the target
whenever the current mode differs from it, aborting on the first failure. -/
def changePowerCore (target : PowerMode) (s : DevState) (c : BusCtx) :
    Int × DevState × BusCtx :=
  let step1Move := stagedTransition s.power target
  let step2Move := s.power ≠ target
  if step1Move then
    let r1 := setPowerSettings PowerMode.normal s.cfgSleepDuration s c
    if r1.1 ≠ 0 then r1
    else if step2Move then setPowerSettings target r1.2.1.cfgSleepDuration r1.2.1 r1.2.2
    else (0, r1.2.1, r1.2.2)
  else if step2Move then setPowerSettings target s.cfgSleepDuration s c
  else (0, s, c)

/-- Shallow embedding of change_power (bma253.c lines 3640-3721).  Leaving
DEEP_SUSPEND first runs reset_and_recfg (lines 3445-3638), which sets the
in-memory power mode to NORMAL before writing anything (line 3467) and then
re-runs the whole configuration sequence; that straight-line sequence of
register writes, each aborting on its first failure (and each carrying its
own set_register settle delay), is abstracted as one
composite fallible operation, with bandwidth_curr restored to the
configured bandwidth on success (line 3484).  No claim depends on its
internals and the theorems about failure behaviour exclude this branch. -/
def changePower (target : PowerMode) (s : DevState) (c : BusCtx) :
    Int × DevState × BusCtx :=
  if s.power = PowerMode.deepSuspend then
    let r0 := busOp BusEvent.reinitSeq c
    let s0 := { s with power := PowerMode.normal,
                       bandwidthCurr := if r0.1 = 0 then s.cfgFilterBandwidth
                                        else s.bandwidthCurr }
    if r0.1 ≠ 0 then (r0.1, s0, r0.2)
    else changePowerCore target s0 r0.2
  else changePowerCore target s c

/-- Shallow embedding of interim_power (bma253.c lines 3723-3741): no-op
when the current mode is among the requests, otherwise a transition to the
first request. -/
def interimPower (reqs : List PowerMode) (s : DevState) (c : BusCtx) :
    Int × DevState × BusCtx :=
  match reqs with
  | [] => (SYS_EINVAL, s, c)
  | r0 :: _ => if s.power ∈ reqs then (0, s, c) else changePower r0 s c


/-! ## Power-transition theorems (C7, C8) -/

/-- Recognizer for writes of the power-mode register REG_ADDR_PMU_LPW. -/
def isPmuLpwWrite : BusEvent → Bool
  | BusEvent.writePmuLpw _ => true
  | _ => false

/-- Recognizer for settle-delay events. -/
def isDelayEvent : BusEvent → Bool
  | BusEvent.delayMs _ => true
  | _ => false

/-- Concrete device state currently in SUSPEND, used to instantiate the
power-transition theorems. -/
def devSuspend : DevState :=
  { power := PowerMode.suspend, bandwidthCurr := FilterBandwidth.hz125,
    cfgPowerMode := PowerMode.suspend, cfgFilterBandwidth := FilterBandwidth.hz125,
    cfgSleepDuration := SleepDuration.ms0p5, daqReqNew := false, daqInProc := false,
    evEnabled := 0, hwCfgPending := false, pendingPm := PowerMode.suspend,
    pendingBw := FilterBandwidth.hz125 }

/-- Oracle failing exactly the sixth fallible bus operation. -/
def failAtFive : Nat → Int := fun n => if n = 5 then SYS_EIO else 0

theorem setPowerSettings_cases (pm : PowerMode) (sd : SleepDuration)
    (s : DevState) (c : BusCtx) :
    (setPowerSettings pm sd s c).2.1 = s
    ∨ (setPowerSettings pm sd s c).2.1 = { s with power := pm } := by
  simp only [setPowerSettings]
  split_ifs <;> simp

theorem setPowerSettings_success (pm : PowerMode) (sd : SleepDuration)
    (s : DevState) (c : BusCtx) (h : (setPowerSettings pm sd s c).1 = 0) :
    (setPowerSettings pm sd s c).2.1 = { s with power := pm } := by
  simp only [setPowerSettings] at h ⊢
  split_ifs at h ⊢ <;> simp_all

theorem stagedTransition_irrefl (t : PowerMode) : stagedTransition t t = false := by
  cases t <;> decide

theorem stagedTransition_ne (cur target : PowerMode)
    (h : stagedTransition cur target = true) : cur ≠ target := by
  intro he
  rw [he, stagedTransition_irrefl] at h
  cases h

theorem changePowerCore_success_power (target : PowerMode) (s : DevState) (c : BusCtx)
    (h : (changePowerCore target s c).1 = 0) :
    (changePowerCore target s c).2.1.power = target := by
  simp only [changePowerCore] at h ⊢
  by_cases h1 : stagedTransition s.power target = true
  · rw [if_pos h1] at h ⊢
    by_cases hrc : (setPowerSettings PowerMode.normal s.cfgSleepDuration s c).1 ≠ 0
    · rw [if_pos hrc] at h
      exact absurd h hrc
    · rw [if_neg hrc] at h ⊢
      have hne : s.power ≠ target := stagedTransition_ne _ _ h1
      rw [if_pos hne] at h ⊢
      rw [setPowerSettings_success _ _ _ _ h]
  · rw [if_neg h1] at h ⊢
    by_cases h2 : s.power ≠ target
    · rw [if_pos h2] at h ⊢
      rw [setPowerSettings_success _ _ _ _ h]
    · rw [if_neg h2] at h ⊢
      have h2e : s.power = target := not_not.mp h2
      simpa using h2e

theorem changePowerCore_cases (target : PowerMode) (s : DevState) (c : BusCtx) :
    (changePowerCore target s c).2.1 = s
    ∨ (changePowerCore target s c).2.1 = { s with power := PowerMode.normal }
    ∨ (changePowerCore target s c).2.1 = { s with power := target } := by
  simp only [changePowerCore]
  by_cases h1 : stagedTransition s.power target = true
  · rw [if_pos h1]
    by_cases hrc : (setPowerSettings PowerMode.normal s.cfgSleepDuration s c).1 ≠ 0
    · rw [if_pos hrc]
      rcases setPowerSettings_cases PowerMode.normal s.cfgSleepDuration s c with hA | hA <;>
        simp [hA]
    · rw [if_neg hrc]
      by_cases h2 : s.power ≠ target
      · rw [if_pos h2]
        have hB := setPowerSettings_cases target
          (setPowerSettings PowerMode.normal s.cfgSleepDuration s c).2.1.cfgSleepDuration
          (setPowerSettings PowerMode.normal s.cfgSleepDuration s c).2.1
          (setPowerSettings PowerMode.normal s.cfgSleepDuration s c).2.2
        rcases setPowerSettings_cases PowerMode.normal s.cfgSleepDuration s c with hA | hA <;>
          rcases hB with hB | hB <;> rw [hB, hA] <;>
          obtain ⟨pw, bw, cpm, cbw, sd, dn, dp, ev, hcp, ppm, pbw⟩ := s <;> simp
      · rw [if_neg h2]
        rcases setPowerSettings_cases PowerMode.normal s.cfgSleepDuration s c with hA | hA <;>
          simp [hA]
  · rw [if_neg h1]
    by_cases h2 : s.power ≠ target
    · rw [if_pos h2]
      rcases setPowerSettings_cases target s.cfgSleepDuration s c with hA | hA <;> simp [hA]
    · rw [if_neg h2]
      simp


/-- Expected event trace of the successful staged SUSPEND to STANDBY
transition: every write up to and including the NORMAL power-mode write
runs while the in-memory mode is still SUSPEND and so is followed by the
1 ms suspend-class settle delay of set_register; the step-2 writes run in
NORMAL and are followed by the 2 microsecond wait. -/
def stagedSuspendStandbyTrace (sd : SleepDuration) : List BusEvent :=
  [BusEvent.writePmuLowPower 0, BusEvent.delayMs 1,
   BusEvent.readFifoConfig, BusEvent.writeFifoConfig, BusEvent.delayMs 1,
   BusEvent.writePmuLpw (pmuLpwByte PowerMode.normal sd), BusEvent.delayMs 1,
   BusEvent.writePmuLowPower 64, BusEvent.delayUs 2,
   BusEvent.writePmuLpw (pmuLpwByte PowerMode.standby sd), BusEvent.delayUs 2]

theorem change_power_staged_trace (s : DevState)
    (hp : s.power = PowerMode.suspend) :
    (changePower PowerMode.standby s (mkCtx fun _ => 0)).2.2.events
      = stagedSuspendStandbyTrace s.cfgSleepDuration := by
  simp [changePower, changePowerCore, setPowerSettings, stagedTransition, busOp,
    clearFifo, setRegOp, settleDelay, busDelay, mkCtx, pmuLpwByte,
    pmuLowPowerModeBits, pmuLpwModeBits, hp, stagedSuspendStandbyTrace]

/-- C7: a transition with current mode SUSPEND and target STANDBY, with
all bus operations succeeding, returns success with the target committed
and performs exactly two writes of the power-mode register REG_ADDR_PMU_LPW,
the first setting NORMAL and the second STANDBY, with settle delay between
the two writes: the trace decomposes around the two writes with a delay
event strictly between them (the 1 ms suspend-class delay after the NORMAL
write, and a further 2 microsecond wait after the step-2 PMU_LOW_POWER
write). -/
theorem change_power_staged_two_writes (s : DevState)
    (hp : s.power = PowerMode.suspend) :
    (changePower PowerMode.standby s (mkCtx fun _ => 0)).1 = 0
    ∧ (changePower PowerMode.standby s (mkCtx fun _ => 0)).2.1.power = PowerMode.standby
    ∧ ((changePower PowerMode.standby s (mkCtx fun _ => 0)).2.2.events.filter isPmuLpwWrite)
      = [BusEvent.writePmuLpw (pmuLpwByte PowerMode.normal s.cfgSleepDuration),
         BusEvent.writePmuLpw (pmuLpwByte PowerMode.standby s.cfgSleepDuration)]
    ∧ (∃ pre mid post : List BusEvent,
        (changePower PowerMode.standby s (mkCtx fun _ => 0)).2.2.events
          = pre ++ BusEvent.writePmuLpw (pmuLpwByte PowerMode.normal s.cfgSleepDuration)
              :: mid ++ BusEvent.writePmuLpw (pmuLpwByte PowerMode.standby s.cfgSleepDuration)
              :: post
        ∧ mid.any isDelayEvent = true) := by
  have htr := change_power_staged_trace s hp
  refine ⟨?_, ?_, ?_, ?_⟩
  · simp [changePower, changePowerCore, setPowerSettings, stagedTransition, busOp,
      clearFifo, setRegOp, settleDelay, busDelay, mkCtx, hp]
  · simp [changePower, changePowerCore, setPowerSettings, stagedTransition, busOp,
      clearFifo, setRegOp, settleDelay, busDelay, mkCtx, hp]
  · rw [htr]
    simp [stagedSuspendStandbyTrace, isPmuLpwWrite, List.filter]
  · refine ⟨[BusEvent.writePmuLowPower 0, BusEvent.delayMs 1, BusEvent.readFifoConfig,
        BusEvent.writeFifoConfig, BusEvent.delayMs 1],
      [BusEvent.delayMs 1, BusEvent.writePmuLowPower 64, BusEvent.delayUs 2],
      [BusEvent.delayUs 2], ?_, by simp [isDelayEvent]⟩
    rw [htr]
    simp [stagedSuspendStandbyTrace]

/-- Witness for C7: the two-write trace with a delay between the writes at
the concrete state devSuspend. -/
theorem change_power_staged_two_writes_witness :
    devSuspend.power = PowerMode.suspend ∧
    ((changePower PowerMode.standby devSuspend (mkCtx fun _ => 0)).2.2.events.filter
        isPmuLpwWrite)
      = [BusEvent.writePmuLpw (pmuLpwByte PowerMode.normal devSuspend.cfgSleepDuration),
         BusEvent.writePmuLpw (pmuLpwByte PowerMode.standby devSuspend.cfgSleepDuration)] :=
  ⟨rfl, (change_power_staged_two_writes devSuspend rfl).2.2.1⟩

/-- C8 (amended): when any bus operation of change_power fails (outside the
deep-suspend re-initialization branch), the call returns the failure and
performs no further writes, but the in-memory power mode is not rolled
back: the final state equals the initial state with the power field either
untouched, at the staged intermediate NORMAL, or at the committed target,
according to which power-mode register writes had completed; every other
field is unchanged. -/
theorem change_power_failure_committed_mode (target : PowerMode) (s : DevState)
    (c : BusCtx) (hds : s.power ≠ PowerMode.deepSuspend)
    (hrc : (changePower target s c).1 ≠ 0) :
    (changePower target s c).2.1 = s
    ∨ (changePower target s c).2.1 = { s with power := PowerMode.normal }
    ∨ (changePower target s c).2.1 = { s with power := target } := by
  have hne := hrc
  simp only [changePower, if_neg hds] at hne ⊢
  exact changePowerCore_cases target s c

/-- Witness for C8: the sixth bus operation failing during the staged
SUSPEND to STANDBY transition leaves the driver reporting the error. -/
theorem change_power_failure_committed_mode_witness :
    devSuspend.power ≠ PowerMode.deepSuspend
    ∧ (changePower PowerMode.standby devSuspend (mkCtx failAtFive)).1 ≠ 0
    ∧ ((changePower PowerMode.standby devSuspend (mkCtx failAtFive)).2.1 = devSuspend
      ∨ (changePower PowerMode.standby devSuspend (mkCtx failAtFive)).2.1
          = { devSuspend with power := PowerMode.normal }
      ∨ (changePower PowerMode.standby devSuspend (mkCtx failAtFive)).2.1
          = { devSuspend with power := PowerMode.standby }) :=
  ⟨by decide, by decide,
    change_power_failure_committed_mode PowerMode.standby devSuspend (mkCtx failAtFive)
      (by decide) (by decide)⟩

/-- Counterexample to C8 as stated: with the oracle failing the sixth bus
operation (the STANDBY power-mode write of the staged second step), the
call starting from SUSPEND returns the error yet the in-memory power mode
reads NORMAL, not its value before the call. -/
theorem change_power_partial_update_cex :
    devSuspend.power = PowerMode.suspend
    ∧ (changePower PowerMode.standby devSuspend (mkCtx failAtFive)).1 = SYS_EIO
    ∧ (changePower PowerMode.standby devSuspend (mkCtx failAtFive)).2.1.power
        = PowerMode.normal := by
  decide


/-! ## Hardware-configuration arbiter (bma253.c lines 3901-3998) -/

/-- Modelled from the spec: the double-tap logical-event bit from the host
framework sensor.h (not under src).  The logic only needs it to be one
fixed nonzero bit. -/
def SENSOR_EVENT_TYPE_DOUBLE_TAP : Nat := 1

/-- Modelled from the spec: BMA253_SAMPLE_COUNT_TO_INVALIDATE from
bma253_priv.h (not under src), the fixed number of sample intervals
delayed to flush stale pre-transition samples. -/
def BMA253_SAMPLE_COUNT_TO_INVALIDATE : Nat := 4

/-- Sample interval in microseconds (bma253.c lines 633-640). -/
def sampleIntervalUs (s : DevState) : Nat :=
  500 <<< (7 - s.bandwidthCurr.toNat)

/-- REG_ADDR_PMU_BW byte written by bma253_set_filter_bandwidth
(bma253.c lines 852-881): 0x08 plus the enum value. -/
def pmuBwByte (bw : FilterBandwidth) : Nat := 8 + bw.toNat

/-- Target power mode computed by bma253_arbitrate_hw_cfg
(bma253.c lines 3946-3952). -/
def arbitratedPm (s : DevState) : PowerMode :=
  if s.daqReqNew || s.daqInProc then PowerMode.normal
  else if s.evEnabled ≠ 0 then PowerMode.lpm1
  else PowerMode.suspend

/-- Target bandwidth computed by bma253_arbitrate_hw_cfg
(bma253.c lines 3954-3963). -/
def arbitratedBw (s : DevState) : FilterBandwidth :=
  if s.evEnabled &&& SENSOR_EVENT_TYPE_DOUBLE_TAP ≠ 0 then
    if s.daqInProc || s.daqReqNew then
      if s.cfgFilterBandwidth.toNat < FilterBandwidth.hz125.toNat then FilterBandwidth.hz125
      else s.cfgFilterBandwidth
    else FilterBandwidth.hz1000
  else s.cfgFilterBandwidth

/-- Shallow embedding of bma253_arbitrate_hw_cfg (bma253.c lines
3923-3998).  When a drain is in progress the computed target is stashed
under the lock and nothing is applied (lines 3965-3972); otherwise power
and bandwidth changes are applied, each aborting on failure, and any
change is followed by the invalidation delay and a FIFO clear whose
return code is discarded (lines 3974-3995). -/
def arbitrateHwCfg (s : DevState) (c : BusCtx) : Int × DevState × BusCtx :=
  let pm := arbitratedPm s
  let bw := arbitratedBw s
  if s.daqInProc then
    (0, { s with hwCfgPending := true, pendingPm := pm, pendingBw := bw }, c)
  else
    let r1 := if pm ≠ s.power then changePower pm s c else (0, s, c)
    if r1.1 ≠ 0 then r1
    else
      let s1 := r1.2.1
      let r2 :=
        if bw ≠ s1.bandwidthCurr then
          let rb := setRegOp (BusEvent.writePmuBw (pmuBwByte bw)) s1.power r1.2.2
          if rb.1 ≠ 0 then (rb.1, s1, rb.2)
          else (0, { s1 with bandwidthCurr := bw }, rb.2)
        else (0, s1, r1.2.2)
      if r2.1 ≠ 0 then r2
      else if pm ≠ s.power ∨ bw ≠ s1.bandwidthCurr then
        let ms := sampleIntervalUs r2.2.1 / 1000
        let c3 := busDelay ((if 1 < ms then ms else 1) * BMA253_SAMPLE_COUNT_TO_INVALIDATE)
          r2.2.2
        let r4 := clearFifo r2.2.1.power c3
        (0, r2.2.1, r4.2)
      else (0, r2.2.1, r2.2.2)

/-- Shallow embedding of bma253_exec_pending_hw_cfg (bma253.c lines
3901-3921): applies the stashed power mode and bandwidth when they differ
from the current values, aborting on the first failure.  The function
never touches the hw_cfg_pending flag. -/
def execPendingHwCfg (s : DevState) (c : BusCtx) : Int × DevState × BusCtx :=
  let pm := s.pendingPm
  let bw := s.pendingBw
  let r1 := if pm ≠ s.power then changePower pm s c else (0, s, c)
  if r1.1 ≠ 0 then r1
  else
    let s1 := r1.2.1
    if bw ≠ s1.bandwidthCurr then
      let rb := setRegOp (BusEvent.writePmuBw (pmuBwByte bw)) s1.power r1.2.2
      if rb.1 ≠ 0 then (rb.1, s1, rb.2)
      else (0, { s1 with bandwidthCurr := bw }, rb.2)
    else (0, s1, r1.2.2)

/-- Concrete device state with a drain in progress. -/
def devDaq : DevState :=
  { power := PowerMode.suspend, bandwidthCurr := FilterBandwidth.hz125,
    cfgPowerMode := PowerMode.suspend, cfgFilterBandwidth := FilterBandwidth.hz125,
    cfgSleepDuration := SleepDuration.ms0p5, daqReqNew := false, daqInProc := true,
    evEnabled := 0, hwCfgPending := false, pendingPm := PowerMode.suspend,
    pendingBw := FilterBandwidth.hz125 }

/-- Concrete device state with a stashed configuration equal to the current
one and the pending flag set. -/
def devPending : DevState :=
  { power := PowerMode.normal, bandwidthCurr := FilterBandwidth.hz1000,
    cfgPowerMode := PowerMode.suspend, cfgFilterBandwidth := FilterBandwidth.hz1000,
    cfgSleepDuration := SleepDuration.ms0p5, daqReqNew := false, daqInProc := false,
    evEnabled := 0, hwCfgPending := true, pendingPm := PowerMode.normal,
    pendingBw := FilterBandwidth.hz1000 }

/-- C5: when bma253_arbitrate_hw_cfg runs with daq_in_proc set and the
computed target differs from the current configuration, the call returns
success with no bus activity whatsoever (the context, and hence the event
trace, is untouched): power and bandwidth stay as they were, and the
target is stashed in pending_hw_cfg_pm and pending_hw_cfg_bw with
hw_cfg_pending set. -/
theorem arbitrate_defers_under_daq (s : DevState) (c : BusCtx)
    (hd : s.daqInProc = true)
    (hchanged : (arbitratedPm s, arbitratedBw s) ≠ (s.power, s.bandwidthCurr)) :
    (arbitrateHwCfg s c).1 = 0
    ∧ (arbitrateHwCfg s c).2.2 = c
    ∧ (arbitrateHwCfg s c).2.1.power = s.power
    ∧ (arbitrateHwCfg s c).2.1.bandwidthCurr = s.bandwidthCurr
    ∧ (arbitrateHwCfg s c).2.1.hwCfgPending = true
    ∧ (arbitrateHwCfg s c).2.1.pendingPm = arbitratedPm s
    ∧ (arbitrateHwCfg s c).2.1.pendingBw = arbitratedBw s := by
  simp [arbitrateHwCfg, hd]

/-- Witness for C5: a drain in progress over a SUSPEND configuration
computes the changed target NORMAL and stashes it without bus activity. -/
theorem arbitrate_defers_under_daq_witness :
    devDaq.daqInProc = true
    ∧ (arbitrateHwCfg devDaq (mkCtx fun _ => 0)).2.1.hwCfgPending = true
    ∧ (arbitrateHwCfg devDaq (mkCtx fun _ => 0)).2.1.pendingPm = arbitratedPm devDaq :=
  ⟨by decide,
    (arbitrate_defers_under_daq devDaq (mkCtx fun _ => 0) (by decide) (by decide)).2.2.2.2.1,
    (arbitrate_defers_under_daq devDaq (mkCtx fun _ => 0) (by decide) (by decide)).2.2.2.2.2.1⟩

theorem changePower_success_power (target : PowerMode) (s : DevState) (c : BusCtx)
    (h : (changePower target s c).1 = 0) :
    (changePower target s c).2.1.power = target := by
  simp only [changePower] at h ⊢
  by_cases hds : s.power = PowerMode.deepSuspend
  · rw [if_pos hds] at h ⊢
    by_cases hr : (busOp BusEvent.reinitSeq c).1 ≠ 0
    · rw [if_pos hr] at h
      exact absurd h hr
    · rw [if_neg hr] at h ⊢
      exact changePowerCore_success_power target _ _ h
  · rw [if_neg hds] at h ⊢
    exact changePowerCore_success_power target s c h

theorem changePower_frame (target : PowerMode) (s : DevState) (c : BusCtx) :
    (changePower target s c).2.1.hwCfgPending = s.hwCfgPending
    ∧ (changePower target s c).2.1.pendingPm = s.pendingPm
    ∧ (changePower target s c).2.1.pendingBw = s.pendingBw := by
  simp only [changePower]
  by_cases hds : s.power = PowerMode.deepSuspend
  · rw [if_pos hds]
    by_cases hr : (busOp BusEvent.reinitSeq c).1 ≠ 0
    · rw [if_pos hr]
      simp
    · rw [if_neg hr]
      rcases changePowerCore_cases target
          { s with power := PowerMode.normal,
                   bandwidthCurr := if (busOp BusEvent.reinitSeq c).1 = 0
                                    then s.cfgFilterBandwidth else s.bandwidthCurr }
          (busOp BusEvent.reinitSeq c).2 with hc | hc | hc <;> rw [hc] <;> simp
  · rw [if_neg hds]
    rcases changePowerCore_cases target s c with hc | hc | hc <;> rw [hc] <;> simp

/-- C6 (amended): when bma253_exec_pending_hw_cfg is invoked with a stashed
configuration and returns success, the power mode equals pending_hw_cfg_pm
and the bandwidth equals pending_hw_cfg_bw, but the hw_cfg_pending flag is
left exactly as it was: neither this function nor any caller ever clears
it. -/
theorem exec_pending_applies_target (s : DevState) (c : BusCtx)
    (hp : s.hwCfgPending = true)
    (hrc : (execPendingHwCfg s c).1 = 0) :
    (execPendingHwCfg s c).2.1.power = s.pendingPm
    ∧ (execPendingHwCfg s c).2.1.bandwidthCurr = s.pendingBw
    ∧ (execPendingHwCfg s c).2.1.hwCfgPending = true := by
  simp only [execPendingHwCfg] at hrc ⊢
  by_cases h1 : s.pendingPm ≠ s.power
  · rw [if_pos h1] at hrc ⊢
    by_cases hr1 : (changePower s.pendingPm s c).1 ≠ 0
    · rw [if_pos hr1] at hrc
      exact absurd hrc hr1
    · rw [if_neg hr1] at hrc ⊢
      have hr1e : (changePower s.pendingPm s c).1 = 0 := not_not.mp hr1
      have hpw := changePower_success_power s.pendingPm s c hr1e
      have hfr := changePower_frame s.pendingPm s c
      by_cases h2 : s.pendingBw ≠ (changePower s.pendingPm s c).2.1.bandwidthCurr
      · rw [if_pos h2] at hrc ⊢
        by_cases hr2 : (setRegOp (BusEvent.writePmuBw (pmuBwByte s.pendingBw))
            (changePower s.pendingPm s c).2.1.power (changePower s.pendingPm s c).2.2).1 ≠ 0
        · rw [if_pos hr2] at hrc
          exact absurd hrc hr2
        · rw [if_neg hr2] at hrc ⊢
          refine ⟨by simpa using hpw, by simp, by simp [hfr.1, hp]⟩
      · rw [if_neg h2] at hrc ⊢
        have h2e := not_not.mp h2
        exact ⟨by simpa using hpw, by simp [h2e.symm], by simp [hfr.1, hp]⟩
  · rw [if_neg h1] at hrc ⊢
    have h1e : s.pendingPm = s.power := not_not.mp h1
    by_cases h2 : s.pendingBw ≠ s.bandwidthCurr
    · rw [if_pos h2] at hrc ⊢
      by_cases hr2 : (setRegOp (BusEvent.writePmuBw (pmuBwByte s.pendingBw)) s.power c).1 ≠ 0
      · rw [if_pos hr2] at hrc
        exact absurd hrc hr2
      · rw [if_neg hr2] at hrc ⊢
        exact ⟨by simp [h1e], by simp, by simp [hp]⟩
    · rw [if_neg h2] at hrc ⊢
      have h2e := not_not.mp h2
      exact ⟨by simp [h1e], by simp [h2e.symm], by simp [hp]⟩

/-- Witness for C6: the stashed target equal to the current configuration
is applied trivially with success and the flag remains set. -/
theorem exec_pending_applies_target_witness :
    devPending.hwCfgPending = true
    ∧ (execPendingHwCfg devPending (mkCtx fun _ => 0)).1 = 0
    ∧ (execPendingHwCfg devPending (mkCtx fun _ => 0)).2.1.power = devPending.pendingPm :=
  ⟨by decide, by decide,
    (exec_pending_applies_target devPending (mkCtx fun _ => 0) (by decide) (by decide)).1⟩

/-- Counterexample to C6 as stated: a successful bma253_exec_pending_hw_cfg
call leaves hw_cfg_pending still true, never false, since no code path in
the driver clears the flag once set. -/
theorem exec_pending_leaves_flag_set_cex :
    devPending.hwCfgPending = true
    ∧ (execPendingHwCfg devPending (mkCtx fun _ => 0)).1 = 0
    ∧ (execPendingHwCfg devPending (mkCtx fun _ => 0)).2.1.hwCfgPending = true := by
  decide


/-! ## Read entry point (bma253.c lines 4979-5039) -/

/-- Read dispatch mode of the configuration (cfg->read_mode, line 5013). -/
inductive ReadMode where
  | poll
  | stream
  deriving DecidableEq, Repr

/-- Shallow embedding of sensor_driver_read (bma253.c lines 4979-5039).
typeValid is the sensor-type mask check of lines 4993-4997.  The inner
bma253_poll_read or bma253_stream_read call (lines 5013-5024) is
represented by its return code readRc, quantified over in the theorem;
the stream branch first performs the fallible bma253_set_fifo_cfg write
(line 5018).  The rc of bma253_arbitrate_hw_cfg is discarded by the source
(line 5006), bma253_dump_reg only performs reads with discarded results,
and line 5036 returns the literal 0, discarding both readRc and the rc of
bma253_exec_pending_hw_cfg. -/
def sensorDriverRead (typeValid : Bool) (mode : ReadMode) (readRc : Int)
    (s : DevState) (c : BusCtx) : Int × DevState × BusCtx :=
  if ¬typeValid then (SYS_EINVAL, s, c)
  else
    let s1 := { s with daqReqNew := true }
    let r1 := arbitrateHwCfg s1 c
    let s2 := { r1.2.1 with daqReqNew := false, daqInProc := true }
    let r2 := if mode = ReadMode.stream then
                setRegOp BusEvent.writeFifoConfig r1.2.1.power r1.2.2
              else (0, r1.2.2)
    if r2.1 ≠ 0 then (r2.1, s2, r2.2)
    else
      let innerRc := readRc
      let s3 := { s2 with daqReqNew := false, daqInProc := false }
      let r3 := if s3.hwCfgPending then execPendingHwCfg s3 r2.2 else (innerRc, s3, r2.2)
      (0, r3.2.1, r3.2.2)

/-- C9: transport errors of the performed read are not propagated.
sensor_driver_read returns 0 for every return code of the inner poll read,
and in particular returns 0, not the error, when that read fails with a
bus error: the final return 0 at bma253.c line 5036 discards the rc of
the read it performed. -/
theorem sensor_driver_read_swallows_error :
    (∀ readRc : Int,
      (sensorDriverRead true ReadMode.poll readRc devSuspend (mkCtx fun _ => 0)).1 = 0)
    ∧ (sensorDriverRead true ReadMode.poll SYS_EIO devSuspend (mkCtx fun _ => 0)).1 = 0
    ∧ SYS_EIO ≠ 0 := by
  refine ⟨fun readRc => ?_, by decide, by decide⟩
  simp [sensorDriverRead]

/-! ## Session acquisition (bma253.c lines 4427-4435, 5156-5288, 5427-5513) -/

/-- Interrupt-ownership and registration bookkeeping of
struct bma253_private_driver_data used by the session entry points. -/
structure Pdd where
  interruptOwned : Bool
  registeredNotify : Bool
  registeredRead : Bool
  intRefCnt : Nat
  notifyEvtype : Nat
  readSrecType : Nat
  deriving DecidableEq, Repr

/-- enable_intpin (bma253.c lines 3809-3820). -/
def enableIntPin (p : Pdd) : Pdd := { p with intRefCnt := p.intRefCnt + 1 }

/-- disable_intpin (bma253.c lines 3822-3837). -/
def disableIntPin (p : Pdd) : Pdd :=
  if p.intRefCnt = 0 then p else { p with intRefCnt := p.intRefCnt - 1 }

/-- Nat form of the C bit-clearing expression x and-not mask. -/
def maskClear (x mask : Nat) : Nat := x - (x &&& mask)

/-- Interrupt-resource acquisition of bma253_stream_read (bma253.c lines
4427-4435): an already-owned interrupt aborts with SYS_EBUSY before any
session state changes; otherwise the session takes ownership and enables
the interrupt pin. -/
def streamReadAcquire (p : Pdd) : Int × Pdd :=
  if p.interruptOwned then (SYS_EBUSY, p)
  else (0, enableIntPin { p with interruptOwned := true })

/-- Notification-slot acquisition of sensor_driver_set_notification
(bma253.c lines 5472-5481): an owned BMA253_NOTIFY_MASK bit aborts with
SYS_EBUSY and changes nothing; otherwise the event type and mask bit are
registered and the pin enabled. -/
def setNotificationAcquire (p : Pdd) (evtype : Nat) : Int × Pdd :=
  if p.registeredNotify then (SYS_EBUSY, p)
  else (0, enableIntPin { p with notifyEvtype := p.notifyEvtype ||| evtype,
                                 registeredNotify := true })

/-- Shallow embedding of sensor_driver_set_trigger_thresh (bma253.c lines
5156-5288).  There is no ownership check: lines 5182-5184 OR the
BMA253_READ_MASK bit in unconditionally.  The fallible sub-operations
(interim_power, get_int_enable, the optional low and high threshold
configuration writes, set_int_enable) are represented by their return
codes; any failure rolls the registration back (lines 5277-5282). -/
def setTriggerThresh (p : Pdd) (typeAccel : Bool) (srec : Nat)
    (lowValid highValid : Bool)
    (rcPower rcGetIntEnable rcLowCfg rcHighCfg rcSetIntEnable : Int) : Int × Pdd :=
  if ¬typeAccel then (SYS_EINVAL, p)
  else
    let p1 := enableIntPin { p with readSrecType := p.readSrecType ||| srec,
                                    registeredRead := true }
    let rc :=
      if rcPower ≠ 0 then rcPower
      else if rcGetIntEnable ≠ 0 then rcGetIntEnable
      else if lowValid = true ∧ rcLowCfg ≠ 0 then rcLowCfg
      else if highValid = true ∧ rcHighCfg ≠ 0 then rcHighCfg
      else rcSetIntEnable
    if rc ≠ 0 then
      (rc, disableIntPin { p1 with readSrecType := maskClear p1.readSrecType srec,
                                   registeredRead := false })
    else (0, p1)

/-- Concrete registration state whose read slot is already owned. -/
def pddReadOwned : Pdd :=
  { interruptOwned := false, registeredNotify := false, registeredRead := true,
    intRefCnt := 1, notifyEvtype := 0, readSrecType := 1 }

/-- Concrete registration state with every resource owned. -/
def pddBusy : Pdd :=
  { interruptOwned := true, registeredNotify := true, registeredRead := true,
    intRefCnt := 1, notifyEvtype := 1, readSrecType := 1 }

theorem setTriggerThresh_rc_mem (p : Pdd) (srec : Nat) (lowValid highValid : Bool)
    (r1 r2 r3 r4 r5 : Int) :
    (setTriggerThresh p true srec lowValid highValid r1 r2 r3 r4 r5).1 = 0
    ∨ (setTriggerThresh p true srec lowValid highValid r1 r2 r3 r4 r5).1
        ∈ [r1, r2, r3, r4, r5] := by
  simp only [setTriggerThresh]
  split_ifs <;> simp_all

/-- C4 (amended): starting a stream while the interrupt resource is owned,
or registering a notification while the notification slot is owned, fails
immediately with SYS_EBUSY and leaves the session bookkeeping untouched;
but registering a threshold read performs no ownership check at all: its
return code is always 0 or one of its sub-operation codes (never a busy
rejection of the owned slot), and with all sub-operations succeeding it
returns 0 and re-registers the read slot over the existing owner. -/
theorem session_busy_discipline (p : Pdd) (e srec : Nat)
    (lowValid highValid : Bool)
    (rcPower rcGetIntEnable rcLowCfg rcHighCfg rcSetIntEnable : Int)
    (hio : p.interruptOwned = true) (hn : p.registeredNotify = true)
    (hr : p.registeredRead = true) :
    streamReadAcquire p = (SYS_EBUSY, p)
    ∧ setNotificationAcquire p e = (SYS_EBUSY, p)
    ∧ ((setTriggerThresh p true srec lowValid highValid rcPower rcGetIntEnable rcLowCfg
          rcHighCfg rcSetIntEnable).1 = 0
      ∨ (setTriggerThresh p true srec lowValid highValid rcPower rcGetIntEnable rcLowCfg
          rcHighCfg rcSetIntEnable).1
          ∈ [rcPower, rcGetIntEnable, rcLowCfg, rcHighCfg, rcSetIntEnable])
    ∧ (setTriggerThresh p true srec lowValid highValid 0 0 0 0 0).1 = 0
    ∧ (setTriggerThresh p true srec lowValid highValid 0 0 0 0 0).2.registeredRead
        = true := by
  refine ⟨by simp [streamReadAcquire, hio], by simp [setNotificationAcquire, hn],
    setTriggerThresh_rc_mem p srec lowValid highValid _ _ _ _ _, ?_, ?_⟩ <;>
    simp [setTriggerThresh, enableIntPin]

/-- Witness for C4: the fully-owned state rejects the stream and
notification sessions and lets the threshold registration through. -/
theorem session_busy_discipline_witness :
    pddBusy.interruptOwned = true
    ∧ streamReadAcquire pddBusy = (SYS_EBUSY, pddBusy)
    ∧ (setTriggerThresh pddBusy true 1 true false 0 0 0 0 0).1 = 0 :=
  ⟨by decide,
    (session_busy_discipline pddBusy 1 1 true false 0 0 0 0 0
      (by decide) (by decide) (by decide)).1,
    (session_busy_discipline pddBusy 1 1 true false 0 0 0 0 0
      (by decide) (by decide) (by decide)).2.2.2.1⟩

/-- Counterexample to C4 as stated: registering a threshold read while the
read slot is owned does not return SYS_EBUSY; with all sub-operations
succeeding it returns 0 and re-registers over the existing session. -/
theorem set_trigger_thresh_no_busy_check_cex :
    pddReadOwned.registeredRead = true
    ∧ (setTriggerThresh pddReadOwned true 1 true false 0 0 0 0 0).1 = 0
    ∧ (setTriggerThresh pddReadOwned true 1 true false 0 0 0 0 0).1 ≠ SYS_EBUSY := by
  decide

/-! ## Unset-notification power step (bma253.c lines 5360-5425) -/

/-- Shallow embedding of sensor_driver_unset_notification (bma253.c lines
5360-5425).  The local array request_power, declared at line 5366, is
never written before being passed to interim_power at line 5409: its three
entries are arbitrary stack garbage, modelled by the parameter garbage.
The event-type validation (lines 5371-5400) and the pdd bookkeeping
(lines 5405-5407) precede the call; the result of the subsequent
bma253_disable_notify_interrupt is the parameter rcDisable. -/
def unsetNotification (garbage : List PowerMode) (evValid : Bool) (evtype : Nat)
    (p : Pdd) (s : DevState) (c : BusCtx) (rcDisable : Int) :
    Int × Pdd × DevState × BusCtx :=
  if ¬evValid then (SYS_EINVAL, p, s, c)
  else
    let p1 := disableIntPin { p with notifyEvtype := maskClear p.notifyEvtype evtype,
                                     registeredNotify := false }
    let r1 := interimPower garbage s c
    if r1.1 ≠ 0 then (r1.1, p1, r1.2.1, r1.2.2)
    else if rcDisable ≠ 0 then (rcDisable, p1, r1.2.1, r1.2.2)
    else (0, p1, r1.2.1, r1.2.2)

/-- Concrete device state in STANDBY used by the unset-notification
theorem. -/
def devStandby : DevState :=
  { power := PowerMode.standby, bandwidthCurr := FilterBandwidth.hz1000,
    cfgPowerMode := PowerMode.suspend, cfgFilterBandwidth := FilterBandwidth.hz1000,
    cfgSleepDuration := SleepDuration.ms0p5, daqReqNew := false, daqInProc := false,
    evEnabled := 1, hwCfgPending := false, pendingPm := PowerMode.standby,
    pendingBw := FilterBandwidth.hz1000 }

/-- Concrete registration state owning the notification slot. -/
def pddNotify : Pdd :=
  { interruptOwned := false, registeredNotify := true, registeredRead := false,
    intRefCnt := 1, notifyEvtype := 1, readSrecType := 0 }

/-- C10: the power mode reached during unset-notification depends on the
arbitrary prior contents of the uninitialized request_power array: two
choices of stack garbage drive the same call from STANDBY into NORMAL and
into DEEP_SUSPEND respectively, so the transition target is not a
well-defined function of the driver state. -/
theorem unset_notification_garbage_dependent :
    (unsetNotification [PowerMode.normal, PowerMode.normal, PowerMode.normal]
        true 1 pddNotify devStandby (mkCtx fun _ => 0) 0).2.2.1.power
      = PowerMode.normal
    ∧ (unsetNotification
        [PowerMode.deepSuspend, PowerMode.deepSuspend, PowerMode.deepSuspend]
        true 1 pddNotify devStandby (mkCtx fun _ => 0) 0).2.2.1.power
      = PowerMode.deepSuspend
    ∧ PowerMode.normal ≠ PowerMode.deepSuspend := by
  decide

end BMA253
